/-
Verification of the biosciences-temporal CQ14 pipeline orchestrator.

Shallow embedding of `src/biosciences_temporal/temporal/workflows.py`
(the `CQ14Workflow.run` coroutine) and of the retry-policy configuration in
`src/biosciences_temporal/config/retry_policies.py`, together with theorems
checking the natural-language specification against this embedding.

Modelling conventions:
- Python dictionaries crossing the activity boundary are association lists
  `List (String × Json)` over a small JSON value type.
- Each Temporal activity call is resolved by an `Oracle`, a record of
  functions mapping the call's arguments to `Except String` outcomes; an
  `Except.error` models an activity failure surfacing as an exception in
  the workflow (after the Temporal retry machinery has given up).
- `asyncio.gather(..., return_exceptions=True)` fan-out/fan-in is modelled
  by mapping the oracle over the issued task list and examining outcomes
  positionally, exactly as the Python does.
- The workflow function `run` is total: reaching the end of `run`
  corresponds to the pipeline reaching its terminal `Done` state.
-/
import Mathlib

namespace BiosciencesTemporal

/-- JSON values, the universe of Python data crossing the activity boundary
(`json.dumps` / `asdict` in `workflows.py` line 226). -/
inductive Json where
  | null : Json
  | bool (b : Bool) : Json
  | num (n : Int) : Json
  | str (s : String) : Json
  | arr (elems : List Json) : Json
  | obj (fields : List (String × Json)) : Json

/-- A Python dict with JSON-representable values, as an association list. -/
abbrev Dict := List (String × Json)

/-- `d.get(k)` on a Python dict: the first binding of `k`, if any. -/
def dictGet (d : Dict) (k : String) : Option Json :=
  match d with
  | [] => none
  | (k', v) :: rest => if k' = k then some v else dictGet rest k

/-- Python truthiness of a JSON value (`if value:`). -/
def Json.truthy : Json → Bool
  | .null => false
  | .bool b => b
  | .num n => n != 0
  | .str s => !s.isEmpty
  | .arr l => !l.isEmpty
  | .obj l => !l.isEmpty

/-- Python `str(value)` as used in the f-string claim construction of the
Validate phase (scalar cases are exact; containers are summarised, and no
theorem below inspects a claim string built from a container value). -/
def Json.pystr : Json → String
  | .null => "None"
  | .bool true => "True"
  | .bool false => "False"
  | .num n => toString n
  | .str s => s
  | .arr _ => "[...]"
  | .obj _ => "\x7b...\x7d"

/-- `d.get(k)` formatted into an f-string: missing key prints as `None`. -/
def pyGetStr (d : Dict) (k : String) : String :=
  match dictGet d k with
  | some v => v.pystr
  | none => "None"

/-- `d.get(k, default)` formatted into an f-string. -/
def pyGetStrD (d : Dict) (k dflt : String) : String :=
  match dictGet d k with
  | some v => v.pystr
  | none => dflt

/-- `CQ14Input` (workflows.py lines 19-25), with the source's defaults. -/
structure CQ14Input where
  gene_a : String := "TP53"
  gene_b : String := "TYMS"
  target_name : String := "thymidylate synthase"
  condition : String := "cancer"
  deriving DecidableEq

/-- `CQ14Result` (workflows.py lines 28-38): the pipeline's aggregate
result, every field starting absent (`None`) or empty (`[]`). -/
structure CQ14Result where
  gene_a_resolution : Option Dict := none
  gene_b_resolution : Option Dict := none
  gene_a_protein : Option Dict := none
  gene_b_protein : Option Dict := none
  gene_b_interactions : Option Dict := none
  drugs : List Dict := []
  trials : List Dict := []
  validations : List Dict := []

/-- The environment of activity outcomes: one entry per activity defined in
`temporal/activities.py`, typed after the activity signatures there.
`Except.error msg` models the activity failing (exception raised into the
workflow after retries are exhausted). -/
structure Oracle where
  resolve_gene : String → Except String Dict
  enrich_protein : Json → Except String Dict
  expand_interactions : String → Except String Dict
  find_drugs : String → Except String (List Dict)
  search_trials : Json → String → Except String (List Dict)
  validate_gene : String → Except String Dict
  validate_mechanism : String → Except String Dict
  validate_trial : Json → Except String Dict
  validate_synthetic_lethality : String → String → Except String Dict

/-- One Validate-phase activity invocation with its argument payload
(workflows.py lines 157-218). -/
inductive VCall where
  | validate_gene (claim : String)
  | validate_mechanism (claim : String)
  | validate_trial (nct_id : Json)
  | validate_synthetic_lethality (gene_a gene_b : String)

/-- Dispatch one Validate-phase call to the oracle. -/
def execValidation (o : Oracle) : VCall → Except String Dict
  | .validate_gene claim => o.validate_gene claim
  | .validate_mechanism claim => o.validate_mechanism claim
  | .validate_trial nct_id => o.validate_trial nct_id
  | .validate_synthetic_lethality a b => o.validate_synthetic_lethality a b

/-- Phase-1 fan-in arm (workflows.py lines 76-79): a non-exception gather
outcome is recorded, an exception leaves the resolution `None`. -/
def anchorRes : Except String Dict → Option Dict
  | .ok d => some d
  | .error _ => none

/-- A `try/except` around an activity returning a dict (workflows.py
lines 112-119): on failure the result field keeps its `None` default. -/
def tryOrNone : Except String Dict → Option Dict
  | .ok d => some d
  | .error _ => none

/-- A `try/except` around an activity returning a list (workflows.py
lines 124-131 and 145-152): on failure the result field keeps its `[]`
default. -/
def tryOrNil : Except String (List Dict) → List Dict
  | .ok l => l
  | .error _ => []

/-- Phase-5 fan-in filter (workflows.py lines 220-223): exceptions are
dropped from `validations`, successes are kept. -/
def keepOk : Except String Dict → Option Dict
  | .ok d => some d
  | .error _ => none

/-- Phase-2 task construction for one entity (workflows.py lines 85-100):
`if resolution and resolution.get("uniprot_id"):` issues exactly one
`enrich_protein` task with `resolution["uniprot_id"]` as argument. -/
def enrichTaskFor : Option Dict → List Json
  | none => []
  | some d =>
    if d.isEmpty then []
    else
      match dictGet d "uniprot_id" with
      | some v => if v.truthy then [v] else []
      | none => []

/-- Phase-4b query derivation (workflows.py lines 136-143):
`drugs[0].get("name", target_name)` when drugs are present, else the
`target_name` fallback. -/
def trialsQueryOf (drugs : List Dict) (target_name : String) : Json :=
  match drugs with
  | [] => .str target_name
  | d :: _ =>
    match dictGet d "name" with
    | some v => v
    | none => .str target_name

/-- Phase-5 task-list construction (workflows.py lines 157-218): gene-A
identity (if resolved truthy), gene-B identity (if resolved truthy), one
mechanism validation per drug in `drugs[:2]`, trial existence (if any
trial), and the unconditional synthetic-lethality validation. -/
def validationTasks (input : CQ14Input) (resA resB : Option Dict)
    (drugs trials : List Dict) : List VCall :=
  (match resA with
   | some d =>
     if d.isEmpty then []
     else
       [VCall.validate_gene
         (input.gene_a ++ ": HGNC=" ++ pyGetStr d "hgnc_id" ++
          ", Entrez=" ++ pyGetStrD d "entrez_id" "N/A")]
   | none => []) ++
  (match resB with
   | some d =>
     if d.isEmpty then []
     else
       [VCall.validate_gene
         (input.gene_b ++ ": HGNC=" ++ pyGetStr d "hgnc_id" ++
          ", Entrez=" ++ pyGetStrD d "entrez_id" "N/A")]
   | none => []) ++
  (drugs.take 2).map (fun d =>
    VCall.validate_mechanism
      (pyGetStr d "chembl_id" ++ " - " ++ pyGetStr d "name" ++
       ", target=" ++ pyGetStr d "target_name" ++
       ", mechanism=" ++ pyGetStr d "mechanism")) ++
  (match trials with
   | [] => []
   | t :: _ =>
     [VCall.validate_trial
       (match dictGet t "nct_id" with
        | some v => v
        | none => .str "")]) ++
  [VCall.validate_synthetic_lethality input.gene_a input.gene_b]

/-- The observable trace of one workflow execution: the aggregated result
plus the calls the phases issued (arguments of the Enrich fan-out, the
Phase-4b query, the Validate fan-out). -/
structure RunTrace where
  result : CQ14Result
  enrichCalls : List Json
  trialsQuery : Json
  validationCalls : List VCall

/-- `CQ14Workflow.run` (workflows.py lines 53-226) as a total function of
the input and the activity-outcome oracle. Totality of this function is
the embedding of "the pipeline reaches the terminal `Done` state and
returns a result". -/
def run (input : CQ14Input) (o : Oracle) : RunTrace :=
  -- Phase 1: Anchor
  let gene_a_resolution := anchorRes (o.resolve_gene input.gene_a)
  let gene_b_resolution := anchorRes (o.resolve_gene input.gene_b)
  -- Phase 2: Enrich
  let enrich_tasks := enrichTaskFor gene_a_resolution ++ enrichTaskFor gene_b_resolution
  let enrich_results := enrich_tasks.map o.enrich_protein
  let gene_a_protein : Option Dict :=
    match enrich_results[0]? with
    | some (Except.ok d) => some d
    | _ => none
  let gene_b_protein : Option Dict :=
    match enrich_results[1]? with
    | some (Except.ok d) => some d
    | _ => none
  -- Phase 3: Expand
  let gene_b_interactions : Option Dict :=
    tryOrNone (o.expand_interactions input.gene_b)
  -- Phase 4a: Traverse (drugs)
  let drugs : List Dict :=
    tryOrNil (o.find_drugs input.target_name)
  -- Phase 4b: Traverse (trials)
  let drug_name := trialsQueryOf drugs input.target_name
  let trials : List Dict :=
    tryOrNil (o.search_trials drug_name input.condition)
  -- Phase 5: Validate
  let validation_tasks := validationTasks input gene_a_resolution gene_b_resolution drugs trials
  let validation_results := validation_tasks.map (execValidation o)
  let validations : List Dict := validation_results.filterMap keepOk
  { result :=
      { gene_a_resolution := gene_a_resolution
        gene_b_resolution := gene_b_resolution
        gene_a_protein := gene_a_protein
        gene_b_protein := gene_b_protein
        gene_b_interactions := gene_b_interactions
        drugs := drugs
        trials := trials
        validations := validations }
    enrichCalls := enrich_tasks
    trialsQuery := drug_name
    validationCalls := validation_tasks }

/-- Serialization of one optional phase record: `None` becomes JSON `null`
(the `Optional[dict] = None` defaults of `CQ14Result` under `asdict` +
`json.dumps`, workflows.py line 226). -/
def encodeOptDict : Option Dict → Json
  | none => .null
  | some d => .obj d

/-- Serialization of a list-of-dicts phase output (`drugs`, `trials`,
`validations`): always a JSON array, `[]` when the phase degraded. -/
def encodeDictList (l : List Dict) : Json :=
  .arr (l.map Json.obj)

/-- `json.dumps(asdict(result))` (workflows.py line 226): the serialized
result document, with every dataclass field present as a key in
declaration order. -/
def CQ14Result.toJson (r : CQ14Result) : Json :=
  .obj
    [("gene_a_resolution", encodeOptDict r.gene_a_resolution),
     ("gene_b_resolution", encodeOptDict r.gene_b_resolution),
     ("gene_a_protein", encodeOptDict r.gene_a_protein),
     ("gene_b_protein", encodeOptDict r.gene_b_protein),
     ("gene_b_interactions", encodeOptDict r.gene_b_interactions),
     ("drugs", encodeDictList r.drugs),
     ("trials", encodeDictList r.trials),
     ("validations", encodeDictList r.validations)]

/-- The keys of a JSON object, in order. -/
def Json.objKeys : Json → List String
  | .obj fields => fields.map Prod.fst
  | _ => []

/-- Field access on a serialized JSON object. -/
def lookupJson (j : Json) (k : String) : Option Json :=
  match j with
  | .obj fields => dictGet fields k
  | _ => none

/-- Modelled from the spec: the deserialization direction of the round-trip
property (spec §8). The repository only serializes (`json.dumps` at
workflows.py line 226); the inverse parse lives in the external consumer,
so it is written here from the spec's stable-schema wording (null for an
absent phase, arrays of objects for list phases, never omitted keys). -/
def decodeOptDict : Json → Option (Option Dict)
  | .null => some none
  | .obj d => some (some d)
  | _ => none

/-- Modelled from the spec: inverse of a single serialized record for the
round-trip property (spec §8). -/
def decodeDict : Json → Option Dict
  | .obj d => some d
  | _ => none

/-- Modelled from the spec: elementwise inverse of a serialized record
list for the round-trip property (spec §8). -/
def decodeDicts : List Json → Option (List Dict)
  | [] => some []
  | j :: rest => do
    let d ← decodeDict j
    let ds ← decodeDicts rest
    pure (d :: ds)

/-- Modelled from the spec: inverse of `encodeDictList` for the round-trip
property (spec §8). -/
def decodeDictList : Json → Option (List Dict)
  | .arr l => decodeDicts l
  | _ => none

/-- Modelled from the spec: deserialization of a full result document for
the round-trip property (spec §8), accepting exactly the stable schema
emitted by `CQ14Result.toJson`. -/
def CQ14Result.ofJson : Json → Option CQ14Result
  | .obj [("gene_a_resolution", j1), ("gene_b_resolution", j2),
          ("gene_a_protein", j3), ("gene_b_protein", j4),
          ("gene_b_interactions", j5), ("drugs", j6),
          ("trials", j7), ("validations", j8)] => do
    let a ← decodeOptDict j1
    let b ← decodeOptDict j2
    let c ← decodeOptDict j3
    let d ← decodeOptDict j4
    let e ← decodeOptDict j5
    let ds ← decodeDictList j6
    let ts ← decodeDictList j7
    let vs ← decodeDictList j8
    pure ⟨a, b, c, d, e, ds, ts, vs⟩
  | _ => none

/-! ### Retry policy configuration (`config/retry_policies.py`) -/

/-- An error's retryability class (spec §4.2 taxonomy). -/
inductive ErrorClass where
  | Retryable
  | NonRetryable
  deriving DecidableEq

/-- The Retry Policy Engine's verdict (spec §4.2): give up, or retry after
a delay in whole seconds. -/
inductive RetryDecision where
  | Stop
  | RetryAfter (delaySeconds : Nat)
  deriving DecidableEq

/-- A retry policy's magnitudes, in whole seconds
(`temporalio.common.RetryPolicy` fields as instantiated in
`retry_policies.py`; the backoff coefficient 2.0 is an exact integer). -/
structure RetryPolicyCfg where
  initialDelay : Nat
  backoffMultiplier : Nat
  maxDelay : Nat
  maxAttempts : Nat
  nonRetryableErrorTypes : List String

/-- `NON_RETRYABLE_ERRORS` (retry_policies.py lines 16-21). -/
def NON_RETRYABLE_ERRORS : List String :=
  ["UNRESOLVED_ENTITY", "AMBIGUOUS_QUERY", "ENTITY_NOT_FOUND", "ValidationError"]

/-- `SHORT_ACTIVITY_RETRY` (retry_policies.py lines 26-32): 2s initial,
coefficient 2.0, 60s cap, 3 attempts. -/
def SHORT_ACTIVITY_RETRY : RetryPolicyCfg :=
  { initialDelay := 2
    backoffMultiplier := 2
    maxDelay := 60
    maxAttempts := 3
    nonRetryableErrorTypes := NON_RETRYABLE_ERRORS }

/-- `LONG_ACTIVITY_RETRY` (retry_policies.py lines 37-43): 5s initial,
coefficient 2.0, 180s cap, 5 attempts. -/
def LONG_ACTIVITY_RETRY : RetryPolicyCfg :=
  { initialDelay := 5
    backoffMultiplier := 2
    maxDelay := 180
    maxAttempts := 5
    nonRetryableErrorTypes := NON_RETRYABLE_ERRORS }

/-- Modelled from the spec: the Retry Policy Engine
`decide(category, attemptNumber, errorClass)` of spec §4.2. The engine
itself runs inside the Temporal server and is not part of src/; only its
configuration (the two `RetryPolicyCfg` instances above) is. NonRetryable
always stops; at or past `maxAttempts` stop; otherwise retry after
`min(maxDelay, initialDelay * backoffMultiplier^(attemptNumber-1))`. -/
def decideRetry (p : RetryPolicyCfg) (attemptNumber : Nat)
    (errorClass : ErrorClass) : RetryDecision :=
  if errorClass = .NonRetryable then .Stop
  else if p.maxAttempts ≤ attemptNumber then .Stop
  else .RetryAfter (min p.maxDelay (p.initialDelay * p.backoffMultiplier ^ (attemptNumber - 1)))

/-- Modelled from the spec: error classification (spec §4.2, §7). The
matching of an error's type name against `non_retryable_error_types` is
performed by the Temporal server; the recognized code set is
`NON_RETRYABLE_ERRORS` from retry_policies.py, and any other failure
(timeout, connection failure, rate limit) is Retryable. -/
def classify (errorCode : String) : ErrorClass :=
  if errorCode ∈ NON_RETRYABLE_ERRORS then .NonRetryable else .Retryable

/-! ### Concrete fixtures for witnesses and counterexamples -/

/-- A resolved gene record for TP53, shaped after `GeneInfo.model_dump()`. -/
def tp53Dict : Dict :=
  [("hgnc_id", .str "HGNC:11998"), ("symbol", .str "TP53"),
   ("name", .str "tumor protein p53"), ("entrez_id", .str "7157"),
   ("uniprot_id", .str "P04637"), ("ensembl_id", .null)]

/-- A resolved gene record for TYMS, shaped after `GeneInfo.model_dump()`. -/
def tymsDict : Dict :=
  [("hgnc_id", .str "HGNC:12441"), ("symbol", .str "TYMS"),
   ("name", .str "thymidylate synthase"), ("entrez_id", .str "7298"),
   ("uniprot_id", .str "P04818"), ("ensembl_id", .null)]

/-- A protein-context record, shaped after `ProteinFunction.model_dump()`. -/
def proteinDict (u : String) : Dict :=
  [("uniprot_id", .str u), ("function_summary", .str "enzyme"),
   ("keywords", .arr [])]

/-- A drug record, shaped after `DrugCandidate.model_dump()`. -/
def drug1Dict : Dict :=
  [("chembl_id", .str "CHEMBL:185"), ("name", .str "FLUOROURACIL"),
   ("target_name", .str "thymidylate synthase"),
   ("mechanism", .str "INHIBITOR"), ("max_phase", .num 4)]

/-- A second drug record, shaped after `DrugCandidate.model_dump()`. -/
def drug2Dict : Dict :=
  [("chembl_id", .str "CHEMBL:225071"), ("name", .str "RALTITREXED"),
   ("target_name", .str "thymidylate synthase"),
   ("mechanism", .str "INHIBITOR"), ("max_phase", .num 4)]

/-- A trial record, shaped after `ClinicalTrial.model_dump()`. -/
def trialDict : Dict :=
  [("nct_id", .str "NCT:00461032"), ("title", .str "a trial"),
   ("phase", .str "PHASE3"), ("status", .str "COMPLETED"),
   ("conditions", .arr []), ("interventions", .arr [])]

/-- An interaction-set record, shaped after the `expand_interactions`
activity's return value. -/
def interactionsDict : Dict :=
  [("interactions", .arr [])]

/-- A validation-evidence record, shaped after
`ValidationEvidence.model_dump()`. -/
def validationDict : Dict :=
  [("claim", .str "claim"), ("verified", .bool true),
   ("evidence_source", .str "HGNC"), ("evidence_details", .str "ok"),
   ("pubmed_ids", .arr [])]

/-- An oracle under which every activity succeeds, resolving TP53 and TYMS
and discovering two drugs and one trial. -/
def okOracle : Oracle where
  resolve_gene := fun s => .ok (if s = "TP53" then tp53Dict else tymsDict)
  enrich_protein := fun u =>
    .ok (match u with
         | .str s => proteinDict s
         | _ => proteinDict "P00000")
  expand_interactions := fun _ => .ok interactionsDict
  find_drugs := fun _ => .ok [drug1Dict, drug2Dict]
  search_trials := fun _ _ => .ok [trialDict]
  validate_gene := fun _ => .ok validationDict
  validate_mechanism := fun _ => .ok validationDict
  validate_trial := fun _ => .ok validationDict
  validate_synthetic_lethality := fun _ _ => .ok validationDict

/-- Both Anchor resolutions fail with the NonRetryable entity-not-found
code; every downstream activity would succeed. -/
def bothAnchorsFailOracle : Oracle :=
  { okOracle with resolve_gene := fun _ => .error "ENTITY_NOT_FOUND" }

/-- The Expand activity fails (retryable timeout, retries exhausted);
everything else succeeds. -/
def expandFailsOracle : Oracle :=
  { okOracle with expand_interactions := fun _ => .error "timeout" }

/-- Gene A's resolution fails, gene B's succeeds (and carries a
`uniprot_id`); enrichment succeeds. -/
def onlyBResolvesOracle : Oracle :=
  { okOracle with
    resolve_gene := fun s =>
      if s = "TP53" then .error "ENTITY_NOT_FOUND" else .ok tymsDict }

/-- The synthetic-lethality validation fails; everything else succeeds. -/
def syntheticFailsOracle : Oracle :=
  { okOracle with validate_synthetic_lethality := fun _ _ => .error "timeout" }

/-- Drug discovery succeeds but finds nothing; everything else succeeds. -/
def noDrugsOracle : Oracle :=
  { okOracle with find_drugs := fun _ => .ok [] }

/-- The default pipeline input (`CQ14Input` defaults). -/
def defaultInput : CQ14Input := {}

/-! ### Helper lemmas -/

/-- The synthetic-lethality validation is the unconditional tail of the
Validate fan-out list. -/
lemma syn_mem_validationTasks (input : CQ14Input) (resA resB : Option Dict)
    (drugs trials : List Dict) :
    VCall.validate_synthetic_lethality input.gene_a input.gene_b ∈
      validationTasks input resA resB drugs trials := by
  unfold validationTasks
  simp [List.mem_append]

/-- Each arm of the Validate fan-out contributes a bounded number of
calls, for a total of at most six. -/
lemma validationTasks_length_le (input : CQ14Input) (resA resB : Option Dict)
    (drugs trials : List Dict) :
    (validationTasks input resA resB drugs trials).length ≤ 6 := by
  unfold validationTasks
  have hA : (match resA with
    | some d =>
      if d.isEmpty then []
      else
        [VCall.validate_gene
          (input.gene_a ++ ": HGNC=" ++ pyGetStr d "hgnc_id" ++
           ", Entrez=" ++ pyGetStrD d "entrez_id" "N/A")]
    | none => ([] : List VCall)).length ≤ 1 := by
    cases resA with
    | none => simp
    | some d => dsimp only; split <;> simp
  have hB : (match resB with
    | some d =>
      if d.isEmpty then []
      else
        [VCall.validate_gene
          (input.gene_b ++ ": HGNC=" ++ pyGetStr d "hgnc_id" ++
           ", Entrez=" ++ pyGetStrD d "entrez_id" "N/A")]
    | none => ([] : List VCall)).length ≤ 1 := by
    cases resB with
    | none => simp
    | some d => dsimp only; split <;> simp
  have hD : ((drugs.take 2).map (fun d =>
      VCall.validate_mechanism
        (pyGetStr d "chembl_id" ++ " - " ++ pyGetStr d "name" ++
         ", target=" ++ pyGetStr d "target_name" ++
         ", mechanism=" ++ pyGetStr d "mechanism"))).length ≤ 2 := by
    simp [List.length_take]
  have hT : (match trials with
    | [] => ([] : List VCall)
    | t :: _ =>
      [VCall.validate_trial
        (match dictGet t "nct_id" with
         | some v => v
         | none => .str "")]).length ≤ 1 := by
    cases trials <;> simp
  have hS : ([VCall.validate_synthetic_lethality input.gene_a input.gene_b]).length = 1 := rfl
  simp only [List.length_append]
  omega

/-- Every element of the Enrich task list for one entity is the truthy
`uniprot_id` of that entity's successful resolution. -/
lemma mem_enrichTaskFor {r : Option Dict} {v : Json}
    (h : v ∈ enrichTaskFor r) :
    ∃ d, r = some d ∧ dictGet d "uniprot_id" = some v ∧ v.truthy = true := by
  cases r with
  | none => simp [enrichTaskFor] at h
  | some d =>
    refine ⟨d, rfl, ?_⟩
    simp only [enrichTaskFor] at h
    by_cases he : d.isEmpty
    · rw [if_pos he] at h
      simp at h
    · rw [if_neg he] at h
      cases hu : dictGet d "uniprot_id" with
      | none =>
        rw [hu] at h
        simp at h
      | some v' =>
        rw [hu] at h
        by_cases ht : v'.truthy
        · simp [ht] at h
          subst h
          exact ⟨rfl, ht⟩
        · simp [ht] at h

/-- The Enrich task list for one entity has at most one element. -/
lemma enrichTaskFor_length_le (r : Option Dict) :
    (enrichTaskFor r).length ≤ 1 := by
  cases r with
  | none => simp [enrichTaskFor]
  | some d =>
    simp only [enrichTaskFor]
    by_cases he : d.isEmpty
    · rw [if_pos he]
      simp
    · rw [if_neg he]
      cases hu : dictGet d "uniprot_id" with
      | none => simp
      | some v' =>
        by_cases ht : v'.truthy
        · simp [ht]
        · simp [ht]

/-- The drug list the Traverse-a phase records (workflows.py 124-131). -/
def drugsOf (input : CQ14Input) (o : Oracle) : List Dict :=
  tryOrNil (o.find_drugs input.target_name)

/-- The trial list the Traverse-b phase records (workflows.py 136-152). -/
def trialsOf (input : CQ14Input) (o : Oracle) : List Dict :=
  tryOrNil (o.search_trials (trialsQueryOf (drugsOf input o) input.target_name) input.condition)

lemma run_gene_a_resolution (input : CQ14Input) (o : Oracle) :
    (run input o).result.gene_a_resolution = anchorRes (o.resolve_gene input.gene_a) := rfl

lemma run_gene_b_resolution (input : CQ14Input) (o : Oracle) :
    (run input o).result.gene_b_resolution = anchorRes (o.resolve_gene input.gene_b) := rfl

lemma run_enrichCalls (input : CQ14Input) (o : Oracle) :
    (run input o).enrichCalls =
      enrichTaskFor (anchorRes (o.resolve_gene input.gene_a)) ++
        enrichTaskFor (anchorRes (o.resolve_gene input.gene_b)) := rfl

lemma run_gene_a_protein (input : CQ14Input) (o : Oracle) :
    (run input o).result.gene_a_protein =
      (match ((run input o).enrichCalls.map o.enrich_protein)[0]? with
       | some (Except.ok d) => some d
       | _ => none) := rfl

lemma run_gene_b_protein (input : CQ14Input) (o : Oracle) :
    (run input o).result.gene_b_protein =
      (match ((run input o).enrichCalls.map o.enrich_protein)[1]? with
       | some (Except.ok d) => some d
       | _ => none) := rfl

lemma run_gene_b_interactions (input : CQ14Input) (o : Oracle) :
    (run input o).result.gene_b_interactions =
      tryOrNone (o.expand_interactions input.gene_b) := rfl

lemma run_drugs (input : CQ14Input) (o : Oracle) :
    (run input o).result.drugs = drugsOf input o := rfl

lemma run_trialsQuery (input : CQ14Input) (o : Oracle) :
    (run input o).trialsQuery = trialsQueryOf (drugsOf input o) input.target_name := rfl

lemma run_trials (input : CQ14Input) (o : Oracle) :
    (run input o).result.trials = trialsOf input o := rfl

lemma run_validationCalls (input : CQ14Input) (o : Oracle) :
    (run input o).validationCalls =
      validationTasks input (anchorRes (o.resolve_gene input.gene_a))
        (anchorRes (o.resolve_gene input.gene_b)) (drugsOf input o) (trialsOf input o) := rfl

lemma run_validations (input : CQ14Input) (o : Oracle) :
    (run input o).result.validations =
      ((run input o).validationCalls.map (execValidation o)).filterMap keepOk := rfl

lemma run_enrichCalls_length_le (input : CQ14Input) (o : Oracle) :
    (run input o).enrichCalls.length ≤ 2 := by
  rw [run_enrichCalls, List.length_append]
  have ha := enrichTaskFor_length_le (anchorRes (o.resolve_gene input.gene_a))
  have hb := enrichTaskFor_length_le (anchorRes (o.resolve_gene input.gene_b))
  omega

lemma keepOk_eq_some {r : Except String Dict} {v : Dict}
    (h : keepOk r = some v) : r = Except.ok v := by
  cases r with
  | ok d =>
    simp [keepOk] at h
    rw [h]
  | error e =>
    simp [keepOk] at h

/-! ### Claim theorems -/

/-- C1: for every pipeline run — whatever the upstream activity outcomes —
the Validate phase issues the synthetic-relationship validation call
between entityA and entityB, and every entry of the final validation list
is the successful outcome of one of the issued validation calls, so an
individual validation failure is dropped rather than propagated; `run`
being a total function, the pipeline always reaches `Done` and returns a
result. -/
theorem synthetic_validation_always_issued_failures_dropped
    (input : CQ14Input) (o : Oracle) :
    VCall.validate_synthetic_lethality input.gene_a input.gene_b ∈
      (run input o).validationCalls ∧
    ∀ v ∈ (run input o).result.validations,
      ∃ c ∈ (run input o).validationCalls, execValidation o c = Except.ok v := by
  constructor
  · rw [run_validationCalls]
    exact syn_mem_validationTasks input _ _ _ _
  · intro v hv
    rw [run_validations] at hv
    rw [List.mem_filterMap] at hv
    obtain ⟨r, hr, hrv⟩ := hv
    rw [List.mem_map] at hr
    obtain ⟨c, hc, rfl⟩ := hr
    exact ⟨c, hc, keepOk_eq_some hrv⟩

/-- C1 witness: with the default input and an oracle under which only the
synthetic-lethality validation fails, the synthetic call is issued and a
surviving validation entry traces back to a successful issued call. -/
theorem synthetic_validation_always_issued_failures_dropped_witness :
    VCall.validate_synthetic_lethality "TP53" "TYMS" ∈
      (run defaultInput syntheticFailsOracle).validationCalls ∧
    ∃ c ∈ (run defaultInput syntheticFailsOracle).validationCalls,
      execValidation syntheticFailsOracle c = Except.ok validationDict :=
  ⟨(synthetic_validation_always_issued_failures_dropped defaultInput syntheticFailsOracle).1,
   (synthetic_validation_always_issued_failures_dropped defaultInput syntheticFailsOracle).2
     validationDict (List.Mem.head _)⟩

/-- C2 counterexample: with both Anchor resolutions failing on the
NonRetryable entity-not-found code, the pipeline does not terminate
fatally before Enrich — it runs every downstream phase: Expand records
its interaction result, four Validate calls are issued and their
successes recorded, and the terminal result is produced. -/
theorem no_hard_stop_on_dual_anchor_failure :
    (run defaultInput bothAnchorsFailOracle).result.gene_a_resolution = none ∧
    (run defaultInput bothAnchorsFailOracle).result.gene_b_resolution = none ∧
    (run defaultInput bothAnchorsFailOracle).result.gene_b_interactions =
      some interactionsDict ∧
    (run defaultInput bothAnchorsFailOracle).result.drugs = [drug1Dict, drug2Dict] ∧
    (run defaultInput bothAnchorsFailOracle).validationCalls.length = 4 ∧
    (run defaultInput bothAnchorsFailOracle).result.validations.length = 4 :=
  ⟨rfl, rfl, rfl, rfl, rfl, rfl⟩

/-- C2 amended: when both Anchor resolutions fail there is no hard stop —
the pipeline silently continues with two absent resolutions, issues zero
Enrich calls, and still proceeds through the remaining phases to `Done`
(the synthetic-lethality validation is still issued). -/
theorem dual_anchor_failure_degrades
    (input : CQ14Input) (o : Oracle) (eA eB : String)
    (hA : o.resolve_gene input.gene_a = Except.error eA)
    (hB : o.resolve_gene input.gene_b = Except.error eB) :
    (run input o).result.gene_a_resolution = none ∧
    (run input o).result.gene_b_resolution = none ∧
    (run input o).enrichCalls = [] ∧
    VCall.validate_synthetic_lethality input.gene_a input.gene_b ∈
      (run input o).validationCalls := by
  refine ⟨?_, ?_, ?_, ?_⟩
  · rw [run_gene_a_resolution, hA]
    rfl
  · rw [run_gene_b_resolution, hB]
    rfl
  · rw [run_enrichCalls, hA, hB]
    rfl
  · rw [run_validationCalls]
    exact syn_mem_validationTasks input _ _ _ _

/-- C2 amended witness: concrete dual-anchor failure at the default
input. -/
theorem dual_anchor_failure_degrades_witness :
    (run defaultInput bothAnchorsFailOracle).result.gene_a_resolution = none ∧
    (run defaultInput bothAnchorsFailOracle).result.gene_b_resolution = none ∧
    (run defaultInput bothAnchorsFailOracle).enrichCalls = [] ∧
    VCall.validate_synthetic_lethality "TP53" "TYMS" ∈
      (run defaultInput bothAnchorsFailOracle).validationCalls :=
  dual_anchor_failure_degrades defaultInput bothAnchorsFailOracle
    "ENTITY_NOT_FOUND" "ENTITY_NOT_FOUND" rfl rfl

/-- C3 counterexample: with both resolutions succeeding, two drugs
discovered and one trial found, the Validate phase issues six calls — more
than the claimed maximum of five. -/
theorem validation_fanout_exceeds_five :
    5 < (run defaultInput okOracle).validationCalls.length := by
  rw [show (run defaultInput okOracle).validationCalls.length = 6 from rfl]
  omega

/-- Whether a resolution record passes the `if resolution:` truthiness
guard of the Validate phase (a `None` or empty dict does not). -/
def resolutionTruthy : Option Dict → Bool
  | none => false
  | some d => !d.isEmpty

/-- The exact size of the Validate fan-out. -/
lemma validationTasks_length (input : CQ14Input) (resA resB : Option Dict)
    (drugs trials : List Dict) :
    (validationTasks input resA resB drugs trials).length =
      (if resolutionTruthy resA then 1 else 0) +
      (if resolutionTruthy resB then 1 else 0) +
      min 2 drugs.length +
      (if trials.isEmpty then 0 else 1) + 1 := by
  unfold validationTasks
  have hA : (match resA with
    | some d =>
      if d.isEmpty then []
      else
        [VCall.validate_gene
          (input.gene_a ++ ": HGNC=" ++ pyGetStr d "hgnc_id" ++
           ", Entrez=" ++ pyGetStrD d "entrez_id" "N/A")]
    | none => ([] : List VCall)).length = if resolutionTruthy resA then 1 else 0 := by
    cases resA with
    | none => rfl
    | some d =>
      by_cases hd : d.isEmpty <;> simp [resolutionTruthy, hd]
  have hB : (match resB with
    | some d =>
      if d.isEmpty then []
      else
        [VCall.validate_gene
          (input.gene_b ++ ": HGNC=" ++ pyGetStr d "hgnc_id" ++
           ", Entrez=" ++ pyGetStrD d "entrez_id" "N/A")]
    | none => ([] : List VCall)).length = if resolutionTruthy resB then 1 else 0 := by
    cases resB with
    | none => rfl
    | some d =>
      by_cases hd : d.isEmpty <;> simp [resolutionTruthy, hd]
  have hD : ((drugs.take 2).map (fun d =>
      VCall.validate_mechanism
        (pyGetStr d "chembl_id" ++ " - " ++ pyGetStr d "name" ++
         ", target=" ++ pyGetStr d "target_name" ++
         ", mechanism=" ++ pyGetStr d "mechanism"))).length = min 2 drugs.length := by
    simp [List.length_take]
  have hT : (match trials with
    | [] => ([] : List VCall)
    | t :: _ =>
      [VCall.validate_trial
        (match dictGet t "nct_id" with
         | some v => v
         | none => .str "")]).length = if trials.isEmpty then 0 else 1 := by
    cases trials <;> rfl
  have hS : ([VCall.validate_synthetic_lethality input.gene_a input.gene_b]).length = 1 := rfl
  simp only [List.length_append]
  omega

/-- C3 amended: the Validate phase issues at most SIX step-invoker calls:
entityA and entityB identity (each only if its resolution passed the
truthiness guard), at most two drug-mechanism validations, one
trial-existence validation only if a trial was found, and exactly one
synthetic-relationship validation. -/
theorem validation_fanout_at_most_six (input : CQ14Input) (o : Oracle) :
    (run input o).validationCalls.length =
      (if resolutionTruthy (anchorRes (o.resolve_gene input.gene_a)) then 1 else 0) +
      (if resolutionTruthy (anchorRes (o.resolve_gene input.gene_b)) then 1 else 0) +
      min 2 (drugsOf input o).length +
      (if (trialsOf input o).isEmpty then 0 else 1) + 1 ∧
    (run input o).validationCalls.length ≤ 6 := by
  rw [run_validationCalls]
  refine ⟨validationTasks_length input _ _ _ _, validationTasks_length_le input _ _ _ _⟩

/-- C4: Traverse-b's query is `targetName` when the drug list is empty,
and the first drug's `name` value when drugs were discovered (every drug
record of the `find_drugs` activity carries a `name`, `DrugCandidate.name`
being a required field). -/
theorem traverse_b_query_selection (input : CQ14Input) (o : Oracle) :
    ((run input o).result.drugs = [] →
      (run input o).trialsQuery = Json.str input.target_name) ∧
    (∀ d ds v, (run input o).result.drugs = d :: ds →
      dictGet d "name" = some v → (run input o).trialsQuery = v) := by
  rw [run_drugs, run_trialsQuery]
  constructor
  · intro h
    rw [h]
    rfl
  · intro d ds v h hv
    rw [h]
    simp [trialsQueryOf, hv]

/-- C4 witness: with drugs discovered the query is the first drug's name;
with an empty drug list it falls back to the target name. -/
theorem traverse_b_query_selection_witness :
    (run defaultInput okOracle).trialsQuery = Json.str "FLUOROURACIL" ∧
    (run defaultInput noDrugsOracle).trialsQuery = Json.str "thymidylate synthase" :=
  ⟨(traverse_b_query_selection defaultInput okOracle).2 drug1Dict [drug2Dict]
      (Json.str "FLUOROURACIL") rfl rfl,
   (traverse_b_query_selection defaultInput noDrugsOracle).1 rfl⟩

/-- C5 counterexample: when the Expand call fails, the final result's
`gene_b_interactions` field is `None` — serialized as JSON `null`, not as
an empty list. -/
theorem expand_failure_yields_null_not_empty_list :
    (run defaultInput expandFailsOracle).result.gene_b_interactions = none ∧
    lookupJson (CQ14Result.toJson (run defaultInput expandFailsOracle).result)
      "gene_b_interactions" = some Json.null ∧
    some Json.null ≠ some (Json.arr []) := by
  refine ⟨rfl, rfl, ?_⟩
  intro h
  injection h with h'
  exact Json.noConfusion h'

/-- C5 amended: if the Expand activity fails, `gene_b_interactions`
remains `None` (serialized as `null`), while Traverse still executes (the
trial search outcome is recorded) and Validate still issues the
synthetic-lethality call, the pipeline reaching `Done`. -/
theorem expand_failure_degrades (input : CQ14Input) (o : Oracle) (e : String)
    (h : o.expand_interactions input.gene_b = Except.error e) :
    (run input o).result.gene_b_interactions = none ∧
    lookupJson (CQ14Result.toJson (run input o).result) "gene_b_interactions" =
      some Json.null ∧
    (∀ ts, o.search_trials ((run input o).trialsQuery) input.condition = Except.ok ts →
      (run input o).result.trials = ts) ∧
    VCall.validate_synthetic_lethality input.gene_a input.gene_b ∈
      (run input o).validationCalls := by
  have h1 : (run input o).result.gene_b_interactions = none := by
    rw [run_gene_b_interactions, h]
    rfl
  refine ⟨h1, ?_, ?_, ?_⟩
  · have h2 : lookupJson (CQ14Result.toJson (run input o).result) "gene_b_interactions" =
        some (encodeOptDict (run input o).result.gene_b_interactions) := rfl
    rw [h2, h1]
    rfl
  · intro ts hts
    rw [run_trialsQuery] at hts
    rw [run_trials]
    unfold trialsOf
    rw [hts]
    rfl
  · rw [run_validationCalls]
    exact syn_mem_validationTasks input _ _ _ _

/-- C5 amended witness: concrete Expand failure at the default input. -/
theorem expand_failure_degrades_witness :
    (run defaultInput expandFailsOracle).result.gene_b_interactions = none ∧
    lookupJson (CQ14Result.toJson (run defaultInput expandFailsOracle).result)
      "gene_b_interactions" = some Json.null ∧
    (run defaultInput expandFailsOracle).result.trials = [trialDict] ∧
    VCall.validate_synthetic_lethality "TP53" "TYMS" ∈
      (run defaultInput expandFailsOracle).validationCalls := by
  have t := expand_failure_degrades defaultInput expandFailsOracle "timeout" rfl
  exact ⟨t.1, t.2.1, t.2.2.1 [trialDict] rfl, t.2.2.2⟩

/-- C6: for every category's policy and every attempt number below
`maxAttempts`, a Retryable failure yields `RetryAfter` with the
`min(maxDelay, initialDelay * backoffMultiplier^(attemptNumber-1))`
delay; in particular the SHORT policy's delay formula at attempts 1..3
gives the sequence 2s, 4s, 8s (all under the 60s cap), and from attempt 3
on the engine stops, so no more than 3 calls are made. -/
theorem retry_backoff_formula :
    (∀ (p : RetryPolicyCfg) (n : Nat), n < p.maxAttempts →
      decideRetry p n .Retryable =
        .RetryAfter (min p.maxDelay (p.initialDelay * p.backoffMultiplier ^ (n - 1)))) ∧
    ([1, 2, 3].map (fun n =>
        min SHORT_ACTIVITY_RETRY.maxDelay
          (SHORT_ACTIVITY_RETRY.initialDelay *
            SHORT_ACTIVITY_RETRY.backoffMultiplier ^ (n - 1))) = [2, 4, 8]) ∧
    (∀ n, SHORT_ACTIVITY_RETRY.maxAttempts ≤ n →
      decideRetry SHORT_ACTIVITY_RETRY n .Retryable = .Stop) := by
  refine ⟨?_, by decide, ?_⟩
  · intro p n hn
    unfold decideRetry
    rw [if_neg (by decide), if_neg (by omega)]
  · intro n hn
    unfold decideRetry
    rw [if_neg (by decide), if_pos hn]

/-- C6 witness: a Retryable failure on attempt 1 under the SHORT policy is
retried after 2 seconds. -/
theorem retry_backoff_formula_witness :
    1 < SHORT_ACTIVITY_RETRY.maxAttempts ∧
    decideRetry SHORT_ACTIVITY_RETRY 1 .Retryable = .RetryAfter 2 :=
  ⟨by decide, retry_backoff_formula.1 SHORT_ACTIVITY_RETRY 1 (by decide)⟩

/-- C7: for both categories' policies a NonRetryable error yields `Stop`
at every attempt number (including 1); the NonRetryable classification is
exactly the fixed four-code set of `NON_RETRYABLE_ERRORS` (unresolved
entity, ambiguous query, entity not found, schema/model validation
failure), and other failures — timeout, connection failure, rate limit —
classify as Retryable. -/
theorem nonretryable_always_stops :
    (∀ n, decideRetry SHORT_ACTIVITY_RETRY n .NonRetryable = .Stop) ∧
    (∀ n, decideRetry LONG_ACTIVITY_RETRY n .NonRetryable = .Stop) ∧
    (∀ c, classify c = .NonRetryable ↔
      (c = "UNRESOLVED_ENTITY" ∨ c = "AMBIGUOUS_QUERY" ∨
       c = "ENTITY_NOT_FOUND" ∨ c = "ValidationError")) ∧
    classify "timeout" = .Retryable ∧
    classify "ConnectionError" = .Retryable ∧
    classify "RateLimitError" = .Retryable := by
  refine ⟨fun n => rfl, fun n => rfl, ?_, rfl, rfl, rfl⟩
  intro c
  have hmem : c ∈ NON_RETRYABLE_ERRORS ↔
      (c = "UNRESOLVED_ENTITY" ∨ c = "AMBIGUOUS_QUERY" ∨
       c = "ENTITY_NOT_FOUND" ∨ c = "ValidationError") := by
    simp [NON_RETRYABLE_ERRORS]
  rw [← hmem]
  constructor
  · intro h
    by_contra hm
    rw [classify, if_neg hm] at h
    exact ErrorClass.noConfusion h
  · intro hm
    rw [classify, if_pos hm]

/-- C8: every Enrich call's argument is the truthy `uniprot_id` of a
successful Anchor resolution (so an entity whose resolution failed or
lacks a cross-reference contributes zero calls and no error is raised —
`run` is total), at most two calls are issued, and none when both
resolutions are absent. -/
theorem enrich_skips_unresolved (input : CQ14Input) (o : Oracle) :
    (∀ v ∈ (run input o).enrichCalls, ∃ d,
      ((run input o).result.gene_a_resolution = some d ∨
       (run input o).result.gene_b_resolution = some d) ∧
      dictGet d "uniprot_id" = some v ∧ v.truthy = true) ∧
    (run input o).enrichCalls.length ≤ 2 ∧
    ((run input o).result.gene_a_resolution = none ∧
      (run input o).result.gene_b_resolution = none →
      (run input o).enrichCalls = []) := by
  refine ⟨?_, run_enrichCalls_length_le input o, ?_⟩
  · rw [run_enrichCalls, run_gene_a_resolution, run_gene_b_resolution]
    intro v hv
    rw [List.mem_append] at hv
    cases hv with
    | inl h =>
      obtain ⟨d, hd, h1, h2⟩ := mem_enrichTaskFor h
      exact ⟨d, Or.inl hd, h1, h2⟩
    | inr h =>
      obtain ⟨d, hd, h1, h2⟩ := mem_enrichTaskFor h
      exact ⟨d, Or.inr hd, h1, h2⟩
  · rw [run_enrichCalls, run_gene_a_resolution, run_gene_b_resolution]
    rintro ⟨h1, h2⟩
    rw [h1, h2]
    rfl

/-- C8 witness: with only gene B resolved, the single Enrich call carries
B's `uniprot_id`, traced to B's successful resolution. -/
theorem enrich_skips_unresolved_witness :
    ∃ d, ((run defaultInput onlyBResolvesOracle).result.gene_a_resolution = some d ∨
          (run defaultInput onlyBResolvesOracle).result.gene_b_resolution = some d) ∧
      dictGet d "uniprot_id" = some (Json.str "P04818") ∧
      (Json.str "P04818").truthy = true :=
  (enrich_skips_unresolved defaultInput onlyBResolvesOracle).1
    (Json.str "P04818") (List.Mem.head _)

/-- The `decodeDicts` inverse recovers a serialized record list. -/
lemma decode_encode_dictList (l : List Dict) :
    decodeDicts (l.map Json.obj) = some l := by
  induction l with
  | nil => rfl
  | cons d rest ih => simp [decodeDicts, decodeDict, ih]

/-- The `decodeOptDict` inverse recovers a serialized optional record. -/
lemma decode_encode_optDict (x : Option Dict) :
    decodeOptDict (encodeOptDict x) = some x := by
  cases x <;> rfl

/-- C9: the serialized result document always carries all eight result
fields as keys (in dataclass order — never omitted), an absent optional
phase serializes as `null` and an empty list phase as `[]` (shown on the
all-absent result), and serializing then deserializing any result — in
particular a fully populated one — recovers it exactly. -/
theorem result_serialization_roundtrip (r : CQ14Result) :
    Json.objKeys (CQ14Result.toJson r) =
      ["gene_a_resolution", "gene_b_resolution", "gene_a_protein",
       "gene_b_protein", "gene_b_interactions", "drugs", "trials",
       "validations"] ∧
    CQ14Result.ofJson (CQ14Result.toJson r) = some r ∧
    CQ14Result.toJson {} =
      Json.obj
        [("gene_a_resolution", Json.null), ("gene_b_resolution", Json.null),
         ("gene_a_protein", Json.null), ("gene_b_protein", Json.null),
         ("gene_b_interactions", Json.null), ("drugs", Json.arr []),
         ("trials", Json.arr []), ("validations", Json.arr [])] := by
  refine ⟨rfl, ?_, rfl⟩
  unfold CQ14Result.toJson CQ14Result.ofJson
  simp [encodeDictList, decodeDictList, decode_encode_optDict, decode_encode_dictList]

/-- C10: Enrich results are assigned positionally, not by entity — when
entity A contributes no Enrich task but one call is issued (entity B's),
its successful result lands in `gene_a_protein` while `gene_b_protein`
stays `None`; `gene_b_protein` is populated only when two calls (both
entities) were issued. -/
theorem enrich_positional_misassignment (input : CQ14Input) (o : Oracle) :
    (∀ u p, enrichTaskFor (anchorRes (o.resolve_gene input.gene_a)) = [] →
      (run input o).enrichCalls = [u] →
      o.enrich_protein u = Except.ok p →
      (run input o).result.gene_a_protein = some p ∧
      (run input o).result.gene_b_protein = none) ∧
    (∀ q, (run input o).result.gene_b_protein = some q →
      (run input o).enrichCalls.length = 2) := by
  constructor
  · intro u p _ hcalls hp
    constructor
    · rw [run_gene_a_protein, hcalls]
      simp [hp]
    · rw [run_gene_b_protein, hcalls]
      rfl
  · intro q hq
    rw [run_gene_b_protein] at hq
    cases hx : ((run input o).enrichCalls.map o.enrich_protein)[1]? with
    | none =>
      rw [hx] at hq
      exact Option.noConfusion hq
    | some r =>
      have hlt : 1 < ((run input o).enrichCalls.map o.enrich_protein).length := by
        by_contra hge
        rw [List.getElem?_eq_none (by omega)] at hx
        exact Option.noConfusion hx
      rw [List.length_map] at hlt
      have hle := run_enrichCalls_length_le input o
      omega

/-- C10 witness: with gene A unresolved and gene B enriched, B's protein
context is stored in `gene_a_protein` and `gene_b_protein` is `None`. -/
theorem enrich_positional_misassignment_witness :
    (run defaultInput onlyBResolvesOracle).result.gene_a_protein =
      some (proteinDict "P04818") ∧
    (run defaultInput onlyBResolvesOracle).result.gene_b_protein = none :=
  (enrich_positional_misassignment defaultInput onlyBResolvesOracle).1
    (Json.str "P04818") (proteinDict "P04818") rfl rfl rfl

end BiosciencesTemporal
